import Mathlib

namespace ReClaude

/-- Character-list infix test: `sub` occurs contiguously inside `l`. -/
def listHasInfix (l sub : List Char) : Bool :=
  l.tails.any (fun t => sub.isPrefixOf t)

/-- JavaScript `haystack.includes(needle)`: substring containment test. -/
def jsIncludes (s sub : String) : Bool :=
  listHasInfix s.data sub.data

/-- ASCII lowercase of one character (JavaScript `toLowerCase` restricted to
the ASCII range, which covers every keyword in the hook catalogs). -/
def lowerChar (c : Char) : Char :=
  if 65 ≤ c.toNat ∧ c.toNat ≤ 90 then Char.ofNat (c.toNat + 32) else c

/-- JavaScript `s.toLowerCase()` (ASCII fragment). -/
def jsToLower (s : String) : String :=
  ⟨s.data.map lowerChar⟩

/-- JavaScript `s.startsWith(p)`. -/
def jsStartsWith (s p : String) : Bool :=
  p.data.isPrefixOf s.data

/-- The own property names of `Object.prototype` (ECMAScript core plus the
Annex B accessors Node implements). Property access on an object literal
consults the prototype chain, so these keys yield a truthy inherited value
(a function, or `Object.prototype` itself for `__proto__`) even when the
literal has no such own key. -/
def objectProtoKeys : List String :=
  ["constructor", "hasOwnProperty", "isPrototypeOf", "propertyIsEnumerable",
   "toLocaleString", "toString", "valueOf", "__proto__", "__defineGetter__",
   "__defineSetter__", "__lookupGetter__", "__lookupSetter__"]

namespace PreTask

/-- Result record of `PreTaskHook.estimateTaskComplexity` (pre-command.js). -/
structure ComplexityResult where
  level : String
  estimatedMinutes : Nat
  patterns : List String
  components : List String
  requiresCoordination : Bool
deriving DecidableEq

/-- The fixed `complexityIndicators` catalog of `estimateTaskComplexity`,
in object-literal insertion order (the order `Object.entries` iterates). -/
def complexityIndicators : List (String × List String) :=
  [("simple", ["fix", "update", "change", "modify", "add"]),
   ("medium", ["implement", "create", "build", "develop", "integrate"]),
   ("complex", ["refactor", "optimize", "architect", "redesign", "migrate"]),
   ("critical", ["security", "performance", "scale", "distributed", "real-time"])]

/-- The fixed `components` vocabulary of `estimateTaskComplexity`. -/
def componentKeywords : List String :=
  ["frontend", "backend", "database", "api", "auth", "testing"]

/-- The `switch (complexity)` statement inside the indicator loop: it sets
`estimatedMinutes` for the four named tiers and (having no default case)
leaves the previous value unchanged otherwise. -/
def switchMinutes (complexity : String) (est : Nat) : Nat :=
  if complexity = "simple" then 15
  else if complexity = "medium" then 45
  else if complexity = "complex" then 120
  else if complexity = "critical" then 240
  else est

/-- One iteration of the `for (const [complexity, keywords] of
Object.entries(complexityIndicators))` loop: when some keyword of the tier is
a substring of the lowercased description, the loop overwrites `level`,
appends the tier keywords found in the description to `patterns`, and updates
`estimatedMinutes` via the switch. State is `(level, estimatedMinutes,
patterns)`. -/
def indicatorStep (low : String) (st : String × Nat × List String)
    (entry : String × List String) : String × Nat × List String :=
  if (entry.2).any (fun k => jsIncludes low k) then
    (entry.1, switchMinutes entry.1 st.2.1,
     st.2.2 ++ (entry.2).filter (fun k => jsIncludes low k))
  else st

/-- `PreTaskHook.estimateTaskComplexity(description)` (pre-command.js):
keyword-tier loop starting from `level = 'simple'`, `estimatedMinutes = 15`,
`patterns = []`, followed by the multi-component check that overwrites
`level` with `'complex'` and raises `estimatedMinutes` to at least 90 when
more than two component keywords occur in the description. -/
def estimateTaskComplexity (description : String) : ComplexityResult :=
  let low := jsToLower description
  let st := complexityIndicators.foldl (indicatorStep low) ("simple", 15, [])
  let detectedComponents := componentKeywords.filter (fun c => jsIncludes low c)
  let level := if detectedComponents.length > 2 then "complex" else st.1
  let est := if detectedComponents.length > 2 then max st.2.1 90 else st.2.1
  { level := level
    estimatedMinutes := est
    patterns := st.2.2
    components := detectedComponents
    requiresCoordination := detectedComponents.length > 1 }

/-- The instance state of a `PreTaskHook` object: the constructor fields
`swarmPath`, `memoryDb` and the randomly generated `sessionId`. -/
structure HookState where
  swarmPath : String
  memoryDb : String
  sessionId : String

/-- `estimateTaskComplexity` as a method: the source method is declared on
the class but reads no instance field, so the explicit `self` argument is
unused. -/
def estimateTaskComplexityM (_self : HookState) (description : String) :
    ComplexityResult :=
  estimateTaskComplexity description

/-- A JavaScript value passed as the `description` option of
`PreTaskHook.execute`: the cases the error-handling claims distinguish are
`undefined` (the destructuring default applies), `null` (a non-string that
survives the default), and an actual string. -/
inductive JSPrompt where
  | undef
  | nullv
  | str (s : String)
deriving DecidableEq

/-- The `description = 'Unnamed task'` destructuring default of
`PreTaskHook.execute`: it replaces `undefined` only; `null` passes through
as a non-string (`none` here). -/
def coerceDescription : JSPrompt → Option String
  | .undef => some "Unnamed task"
  | .nullv => none
  | .str s => some s

/-- `estimateTaskComplexity` as invoked on a JavaScript value: calling
`description.toLowerCase()` on a non-string throws a `TypeError`, modelled
as `Except.error`; on a string it returns the pure result. -/
def estimateTaskComplexityJS : Option String → Except String ComplexityResult
  | none => .error "TypeError: description.toLowerCase is not a function"
  | some d => .ok (estimateTaskComplexity d)

/-- The slice of `PreTaskHook.execute` output the error-handling claims are
about: whether the hook reports `continue`, the error message of the
`catch` block if the body threw, and the complexity level it reports. -/
structure PreExecOutcome where
  continueFlag : Bool
  error : Option String
  complexityLevel : Option String
deriving DecidableEq

/-- Control skeleton of `PreTaskHook.execute` (default options): the try
block runs `estimateTaskComplexity(description)`; any exception is caught
and converted into `{ continue: false, error }`. The IO sub-operations
(memory load, swarm init, agent spawning) are outside this slice and do not
affect these fields. -/
def executeModel (p : JSPrompt) : PreExecOutcome :=
  match estimateTaskComplexityJS (coerceDescription p) with
  | .ok r => { continueFlag := true, error := none, complexityLevel := some r.level }
  | .error e => { continueFlag := false, error := some e, complexityLevel := none }

/-- Topology configuration record (`topologies` object in
`PreTaskHook.selectOptimalTopology`). -/
structure TopologyConfig where
  suitable : List String
  maxAgents : Nat
  coordination : String
deriving DecidableEq

/-- The fixed `topologies` table of `selectOptimalTopology`, in object
insertion order. -/
def topologies : List (String × TopologyConfig) :=
  [("mesh", ⟨["collaborative", "research", "exploration", "brainstorm"], 6, "distributed"⟩),
   ("hierarchical", ⟨["complex", "multi-layer", "structured", "organized"], 10, "centralized"⟩),
   ("ring", ⟨["sequential", "pipeline", "workflow", "process"], 8, "circular"⟩),
   ("star", ⟨["centralized", "focused", "single-goal", "simple"], 5, "hub-spoke"⟩)]

/-- The per-topology suitability score: count of `suitable` keywords that
occur in the lowercased description (the `reduce` in the source). -/
def suitabilityScore (low : String) (suitable : List String) : Nat :=
  suitable.foldl (fun acc k => acc + (if jsIncludes low k then 1 else 0)) 0

/-- One iteration of the scoring loop of `selectOptimalTopology`: the
candidate replaces the current selection only on a strictly greater score.
State is `(selectedTopology, maxScore)`. -/
def topologyStep (low : String) (st : String × Nat)
    (entry : String × TopologyConfig) : String × Nat :=
  let score := suitabilityScore low entry.2.suitable
  if score > st.2 then (entry.1, score) else st

/-- Result of `selectOptimalTopology`. -/
structure TopologyResult where
  type : String
  config : Option TopologyConfig
  confidence : String
deriving DecidableEq

/-- `PreTaskHook.selectOptimalTopology(description)` (pre-command.js):
keyword-scored selection starting from `('mesh', 0)`, then the specific
overrides — `'api'`/`'service'` force `hierarchical`, otherwise
`'test'`/`'validate'` force `ring`. -/
def selectOptimalTopology (description : String) : TopologyResult :=
  let low := jsToLower description
  let st := topologies.foldl (topologyStep low) ("mesh", 0)
  let selected :=
    if jsIncludes low "api" || jsIncludes low "service" then "hierarchical"
    else if jsIncludes low "test" || jsIncludes low "validate" then "ring"
    else st.1
  { type := selected
    config := topologies.lookup selected
    confidence := if st.2 > 0 then "high" else "medium" }

/-- An agent specification (`{ type, name }` entries of `agentConfigs` in
`PreTaskHook.autoSpawnAgents`). -/
structure AgentSpec where
  type : String
  name : String
deriving DecidableEq

/-- The `simple` row of `agentConfigs`, also the `|| agentConfigs.simple`
fallback for an unknown level. -/
def simpleAgents : List AgentSpec :=
  [⟨"coder", "Implementation"⟩, ⟨"tester", "Validation"⟩]

/-- The fixed `agentConfigs` table of `PreTaskHook.autoSpawnAgents`. -/
def agentConfigs : List (String × List AgentSpec) :=
  [("simple", simpleAgents),
   ("medium",
    [⟨"architect", "Design"⟩, ⟨"coder", "Backend"⟩, ⟨"coder", "Frontend"⟩,
     ⟨"tester", "QA"⟩]),
   ("complex",
    [⟨"coordinator", "Lead"⟩, ⟨"architect", "System Design"⟩,
     ⟨"coder", "Core Implementation"⟩, ⟨"coder", "Integration"⟩,
     ⟨"analyst", "Performance"⟩, ⟨"tester", "Testing"⟩,
     ⟨"reviewer", "Code Review"⟩]),
   ("critical",
    [⟨"coordinator", "Project Manager"⟩, ⟨"architect", "Chief Architect"⟩,
     ⟨"researcher", "Tech Research"⟩, ⟨"coder", "Senior Dev 1"⟩,
     ⟨"coder", "Senior Dev 2"⟩, ⟨"analyst", "Security Analyst"⟩,
     ⟨"optimizer", "Performance Expert"⟩, ⟨"tester", "QA Lead"⟩,
     ⟨"documenter", "Tech Writer"⟩, ⟨"monitor", "DevOps"⟩])]

/-- Outcome of the JavaScript property access `agentConfigs[level]`: an own
key of the object literal yields its roster; a key inherited from
`Object.prototype` (e.g. `constructor`, `toString`, `__proto__`) yields a
truthy non-array value through the prototype chain; any other key yields
`undefined`. -/
inductive ConfigLookup where
  | own (agents : List AgentSpec)
  | inherited
  | absent
deriving DecidableEq

/-- The property access `agentConfigs[complexity.level]` of
`PreTaskHook.autoSpawnAgents` (line 1796), prototype chain included. -/
def agentConfigsGet (level : String) : ConfigLookup :=
  match agentConfigs.lookup level with
  | some agents => .own agents
  | none => if level ∈ objectProtoKeys then .inherited else .absent

/-- `const agents = agentConfigs[complexity.level] || agentConfigs.simple`
followed by `agents.map(...)` and `return agents.length` in
`PreTaskHook.autoSpawnAgents`: an own roster (always a truthy array) is
used as is; `undefined` falls back to the `simple` configuration; a truthy
value inherited from `Object.prototype` survives the `||` and has no `map`
method, so `agents.map(...)` throws a TypeError. The spawn subprocess calls
are IO and do not affect the count. -/
def autoSpawnAgentsJS (level : String) : Except String Nat :=
  match agentConfigsGet level with
  | .own agents => .ok agents.length
  | .inherited => .error "TypeError: agents.map is not a function"
  | .absent => .ok simpleAgents.length

/-- The roster `agents.map` iterates in the non-throwing cases of
`autoSpawnAgentsJS`: an own roster, or the `simple` fallback when the lookup
is `undefined`. On level strings that are not `Object.prototype` property
names — which includes the four catalog levels, the only values
`estimateTaskComplexity` produces — this is exactly
`agentConfigs[complexity.level] || agentConfigs.simple`; an inherited
prototype-chain value instead throws in `autoSpawnAgentsJS` and has no
roster. -/
def agentsForLevel (level : String) : List AgentSpec :=
  match agentConfigsGet level with
  | .own agents => agents
  | _ => simpleAgents

/-- `PreTaskHook.autoSpawnAgents` returns `agents.length` on the
non-throwing levels (in particular on the four catalog levels). -/
def autoSpawnAgentCount (level : String) : Nat :=
  (agentsForLevel level).length

/-- The rank of the four complexity levels in the order
simple < medium < complex < critical. -/
def levelRank (level : String) : Nat :=
  if level = "simple" then 0
  else if level = "medium" then 1
  else if level = "complex" then 2
  else if level = "critical" then 3
  else 4

/-- The four complexity levels, in ascending order. -/
def complexityLevels : List String := ["simple", "medium", "complex", "critical"]

end PreTask

namespace PreCommand

/-- The fixed `dangerousCommands` list of the `PreCommandHook` constructor
(pre-command.js, lines 28-40). -/
def dangerousCommands : List String :=
  ["rm -rf", "dd if=", "mkfs", "format", ":()\x7b :|:& \x7d;:", "chmod -R 777",
   "chown -R", "> /dev/sda", "mv /* ", "wget -O - | sh", "curl | bash"]

/-- Result record of `PreCommandHook.validateCommandSafety`. -/
structure SafetyResult where
  safe : Bool
  warnings : List String
  riskLevel : String
deriving DecidableEq

/-- One iteration of the `for (const dangerous of this.dangerousCommands)`
loop: a contained dangerous pattern sets `safe = false`,
`riskLevel = 'critical'` and appends a warning. -/
def dangerStep (command : String) (st : SafetyResult) (d : String) : SafetyResult :=
  if jsIncludes command d then
    { safe := false
      riskLevel := "critical"
      warnings := st.warnings ++ ["Dangerous command pattern detected: " ++ d] }
  else st

/-- ASCII whitespace, standing in for the `\s` character class of the
source regexes (the commands under analysis are ASCII shell text). -/
def wsChar (c : Char) : Bool :=
  c = ' ' || c = '\t' || c = '\n' || c = '\r'

/-- `w` occurs in `s` immediately followed by a whitespace character —
the shape of the `rm\s`, `del\s`, `mv\s`, `cp\s` regex alternatives. -/
def substrThenWs (s w : String) : Bool :=
  s.data.tails.any (fun t =>
    w.data.isPrefixOf t &&
      (match t.drop w.length with
       | c :: _ => wsChar c
       | [] => false))

/-- The regex `/rm\s|del\s|rmdir|mv\s|cp\s/` of the file-system check. -/
def fsOpsMatch (command : String) : Bool :=
  substrThenWs command "rm" || substrThenWs command "del" ||
    jsIncludes command "rmdir" || substrThenWs command "mv" ||
    substrThenWs command "cp"

/-- The regex `/wget|curl|nc|telnet|ssh|scp/` of the network check. -/
def networkMatch (command : String) : Bool :=
  ["wget", "curl", "nc", "telnet", "ssh", "scp"].any (fun w => jsIncludes command w)

/-- Consume leading whitespace, as the greedy `\s*` does before a
non-whitespace alternative. -/
def dropWs : List Char → List Char
  | [] => []
  | c :: rest => if wsChar c then dropWs rest else c :: rest

/-- One of the interpreter names follows at the head of the character list. -/
def interpHere (t : List Char) : Bool :=
  ["bash", "sh", "python", "node", "ruby"].any (fun w => w.data.isPrefixOf t)

/-- The regex `/\|\s*(bash|sh|python|node|ruby)/` of the script-execution
check: a pipe character, optional whitespace, then an interpreter name. -/
def pipeInterpMatch (command : String) : Bool :=
  command.data.tails.any (fun t =>
    match t with
    | '|' :: rest => interpHere (dropWs rest)
    | _ => false)

/-- `PreCommandHook.expandPaths(command)`: every `~` is replaced by the home
directory (`process.env.HOME`, a parameter here) when the command mentions
`~`; otherwise the command is returned unchanged. -/
def expandPaths (home command : String) : String :=
  if jsIncludes command "~" then
    ⟨command.data.foldr
      (fun c acc => (if c = '~' then home.data else [c]) ++ acc) []⟩
  else command

/-- The shared `if (!result.riskLevel || result.riskLevel === 'low')` upgrade
used by the file-system and network checks: push the warning, and raise a
falsy-or-`'low'` risk level to `'medium'`. -/
def upgradeIfLow (st : SafetyResult) (warning : String) : SafetyResult :=
  let st := { st with warnings := st.warnings ++ [warning] }
  if st.riskLevel = "" || st.riskLevel = "low" then { st with riskLevel := "medium" }
  else st

/-- The sudo check of `validateCommandSafety`. -/
def sudoCheck (command : String) (st : SafetyResult) : SafetyResult :=
  if jsStartsWith command "sudo" || jsIncludes command "| sudo" then
    { st with warnings := st.warnings ++ ["Command requires elevated privileges"]
              riskLevel := "high" }
  else st

/-- The path-validation step of `validateCommandSafety`: commands mentioning
`..` or `~` are expanded and checked for system directories. -/
def pathsCheck (home command : String) (st : SafetyResult) : SafetyResult :=
  if jsIncludes command ".." || jsIncludes command "~" then
    let expanded := expandPaths home command
    if jsIncludes expanded "/etc/" || jsIncludes expanded "/sys/" ||
        jsIncludes expanded "/proc/" then
      { st with warnings := st.warnings ++ ["Command accesses system directories"]
                riskLevel := "high" }
    else st
  else st

/-- The checks of `validateCommandSafety` that follow the dangerous-pattern
loop, in source order: sudo check, file-system check, network check,
script-pipe check, path validation. -/
def postDangerStages (home command : String) (st : SafetyResult) : SafetyResult :=
  let st := sudoCheck command st
  let st := if fsOpsMatch command then
      upgradeIfLow st "Command performs file system operations" else st
  let st := if networkMatch command then
      upgradeIfLow st "Command performs network operations" else st
  let st := if pipeInterpMatch command then
      { st with warnings := st.warnings ++ ["Command pipes to script interpreter"]
                riskLevel := "high" }
    else st
  pathsCheck home command st

/-- `PreCommandHook.validateCommandSafety(command)` (pre-command.js, lines
154-210), with `process.env.HOME` passed as `home`: the result starts as
`{safe: true, warnings: [], riskLevel: 'low'}`, then the dangerous-pattern
loop runs, then the remaining checks. -/
def validateCommandSafety (home command : String) : SafetyResult :=
  postDangerStages home command
    (dangerousCommands.foldl (dangerStep command)
      { safe := true, warnings := [], riskLevel := "low" })

/-- The slice of the `PreCommandHook.execute` result the safety claims are
about: the `continue`/`safe` flags, the collected warnings, and whether
control flow reached the resource-preparation, optimization-suggestion and
intent-logging stages (IO stages abstracted to reachability booleans). -/
structure ExecuteResult where
  continueFlag : Bool
  safe : Bool
  warnings : List String
  ranPrepareResources : Bool
  ranSuggestOptimizations : Bool
  ranLogIntent : Bool
  error : Option String
deriving DecidableEq

/-- Control skeleton of `PreCommandHook.execute` with the default options
(safety validation enabled): a missing/empty command is rejected up front;
an unsafe validation result returns early with `safe = false`,
`continue = false`, skipping resource preparation, optimization suggestions
and intent logging; otherwise those stages run. -/
def execute (home command : String) : ExecuteResult :=
  if command = "" then
    { continueFlag := false, safe := true, warnings := []
      ranPrepareResources := false, ranSuggestOptimizations := false
      ranLogIntent := false, error := some "Command is required" }
  else
    let safety := validateCommandSafety home command
    if !safety.safe then
      { continueFlag := false, safe := false, warnings := safety.warnings
        ranPrepareResources := false, ranSuggestOptimizations := false
        ranLogIntent := false, error := none }
    else
      { continueFlag := true, safe := true, warnings := safety.warnings
        ranPrepareResources := true, ranSuggestOptimizations := true
        ranLogIntent := true, error := none }

end PreCommand

namespace Manager

/-- The keys of the `hooks` registration table of the `HookManager`
constructor (index.js, lines 28-35). -/
def hookNames : List String :=
  ["pre-task", "post-task", "pre-command", "pre-bash", "post-edit", "session-end"]

/-- The slice of a hook-execution result `HookManager.executeHook` is
specified on: real hook results carry further fields, which pass through
unchanged. -/
structure HookResult where
  success : Bool
  error : Option String
deriving DecidableEq

/-- The TypeError the `try/catch` of `executeHook` converts when the
hook-table lookup resolved through the prototype chain instead of to a
registered class: for `constructor` the inherited value is the `Object`
function, `new HookClass()` constructs a plain object, and the call
`hook.execute(options)` throws because the instance has no `execute`
method; for every other inherited name `new HookClass()` itself throws (the
value is a non-constructor built-in function, or for `__proto__` not a
function at all). The engine's exact message text is immaterial to the
claims — what matters is that a TypeError is thrown inside the try block
and caught. -/
def protoCaughtError (hookName : String) : String :=
  if hookName = "constructor" then "TypeError: hook.execute is not a function"
  else "TypeError: HookClass is not a constructor"

/-- `HookManager.executeHook(hookName, options)` (index.js, lines 43-82).
The behaviour of `new HookClass().execute(options)` for registered hooks is
abstracted as `run`, returning either a result or a thrown exception
(`Except.error`). The lookup `this.hooks[hookName]` consults the prototype
chain: a registered name yields its class; an `Object.prototype` property
name yields a truthy inherited value, so the `if (!HookClass)` early return
is skipped and the try block throws a TypeError, caught and converted to
`{ success: false, error }`; any other name yields `undefined` and the
early `{ success: false, error: 'Unknown hook: …' }` return runs. A thrown
exception from a registered hook is likewise caught by the `try/catch`. The
performance-tracking and error-logging subprocess calls swallow their own
failures and do not alter the returned value. -/
def executeHook (run : String → Except String HookResult) (hookName : String) :
    HookResult :=
  if hookName ∈ hookNames then
    match run hookName with
    | .ok r => r
    | .error e => { success := false, error := some e }
  else if hookName ∈ objectProtoKeys then
    { success := false, error := some (protoCaughtError hookName) }
  else
    { success := false, error := some ("Unknown hook: " ++ hookName) }

end Manager

namespace Resolver

/-- Lexicographic comparison of character lists by code point. -/
def lexLeChars : List Char → List Char → Bool
  | [], _ => true
  | _ :: _, [] => false
  | a :: as, b :: bs =>
    if a.toNat < b.toNat then true
    else if b.toNat < a.toNat then false
    else lexLeChars as bs

/-- Lexicographic comparison of strings by code point. -/
def strLe (x y : String) : Bool := lexLeChars x.data y.data

/-- Insert a string into a list in nondecreasing lexicographic position. -/
def insertStr (x : String) : List String → List String
  | [] => [x]
  | y :: ys => if strLe x y then x :: y :: ys else y :: insertStr x ys

/-- Lexicographic insertion sort on tool ids. -/
def sortStrings : List String → List String
  | [] => []
  | x :: xs => insertStr x (sortStrings xs)

/-- A `{required, recommended}` tool-table entry. -/
structure ToolEntry where
  required : List String
  recommended : List String
deriving DecidableEq

/-- Modelled from the spec: the RequirementResolver configuration of §4.4 and
§6 — the three mapping tables (pattern-name → tools, complexity-level →
tools, agent-role → tools), the unconditional always-on tool ids, and the
three trigger-keyword lists with the tool each adds. The resolver itself
(`mcp_tool_mappings.py` / `task_analyzer.py` per the repository docs) is not
under src/, so its shape is taken from the specification text. -/
structure ResolverConfig where
  patternTools : List (String × ToolEntry)
  levelTools : List (Nat × ToolEntry)
  roleTools : List (String × ToolEntry)
  alwaysOn : List String
  docTriggers : List String
  comparisonTriggers : List String
  codebaseTriggers : List String
  docTool : String
  comparisonTool : String
  codebaseTool : String

/-- Table lookup with the empty contribution for an absent key (§4.4,
failure rule). -/
def lookupEntry {α : Type} [BEq α] (tbl : List (α × ToolEntry)) (k : α) : ToolEntry :=
  match tbl.lookup k with
  | some e => e
  | none => { required := [], recommended := [] }

/-- Union the contributions of a list of keys over one mapping table. -/
def unionContrib {α : Type} [BEq α] (tbl : List (α × ToolEntry)) (keys : List α) :
    List String × List String :=
  keys.foldl
    (fun acc k =>
      let e := lookupEntry tbl k
      (acc.1 ++ e.required, acc.2 ++ e.recommended))
    ([], [])

/-- Modelled from the spec: `RequirementResolver.resolve(matchedPatterns,
level, recommendedRoles)` of §4.4, over prompt text for the trigger step —
(1-3) per-source union from the three tables, (4) unconditional always-on
inclusion into `required`, (5) trigger-based conditional inclusion via
case-insensitive substring search, (6) deduplication, lexicographic sorting,
and removal from `recommended` of tools already `required`. -/
def resolve (cfg : ResolverConfig) (matchedPatterns : List String) (level : Nat)
    (roles : List String) (prompt : String) : ToolEntry :=
  let fromPatterns := unionContrib cfg.patternTools matchedPatterns
  let fromLevel := lookupEntry cfg.levelTools level
  let fromRoles := unionContrib cfg.roleTools roles
  let req := fromPatterns.1 ++ fromLevel.required ++ fromRoles.1 ++ cfg.alwaysOn
  let low := jsToLower prompt
  let req := req ++
    (if cfg.docTriggers.any (fun k => jsIncludes low k) then [cfg.docTool] else [])
  let req := req ++
    (if cfg.comparisonTriggers.any (fun k => jsIncludes low k) then
       [cfg.comparisonTool] else [])
  let req := req ++
    (if cfg.codebaseTriggers.any (fun k => jsIncludes low k) then
       [cfg.codebaseTool] else [])
  let reco := fromPatterns.2 ++ fromLevel.recommended ++ fromRoles.2
  let reqFinal := sortStrings req.dedup
  { required := reqFinal
    recommended := sortStrings (reco.dedup.filter (fun t => ¬ t ∈ reqFinal)) }

/-- A small concrete configuration in the shape of the spec examples (§8),
used to exercise the resolver on closed inputs. -/
def sampleConfig : ResolverConfig :=
  { patternTools := [("api-development", ⟨["tool-api"], ["tool-openapi"]⟩)]
    levelTools := [(1, ⟨[], []⟩), (5, ⟨["tool-swarm"], []⟩)]
    roleTools := [("coder", ⟨["tool-edit"], []⟩)]
    alwaysOn := ["alwaysOnTool1", "alwaysOnTool2"]
    docTriggers := ["docs", "documentation"]
    comparisonTriggers := ["compare", "vs"]
    codebaseTriggers := ["codebase", "architecture"]
    docTool := "tool-doc-lookup"
    comparisonTool := "tool-web-search"
    codebaseTool := "tool-code-index" }

end Resolver

/-- Membership is invariant under ordered insertion. -/
theorem mem_insertStr {a x : String} {l : List String} :
    a ∈ Resolver.insertStr x l ↔ a = x ∨ a ∈ l := by
  induction l with
  | nil => simp [Resolver.insertStr]
  | cons y ys ih =>
    unfold Resolver.insertStr
    split
    · simp [List.mem_cons]
    · simp only [List.mem_cons, ih]
      tauto

/-- Membership is invariant under the lexicographic sort. -/
theorem mem_sortStrings {a : String} {l : List String} :
    a ∈ Resolver.sortStrings l ↔ a ∈ l := by
  induction l with
  | nil => simp [Resolver.sortStrings]
  | cons x xs ih => simp [Resolver.sortStrings, mem_insertStr, ih]

/-- C3: complexity analysis is deterministic — `estimateTaskComplexity` is a
pure function of the description and the fixed catalog. The source method
reads none of the instance state (in particular not the randomly generated
`sessionId`), performs no IO and calls no random source, so the embedding
takes the instance state as an explicit argument and the result is
independent of it; two calls on the same prompt give identical
`{level, estimatedMinutes, patterns, components, requiresCoordination}`
records. -/
theorem estimateTaskComplexity_deterministic
    (s1 s2 : PreTask.HookState) (p : String) :
    PreTask.estimateTaskComplexityM s1 p = PreTask.estimateTaskComplexityM s2 p := rfl

/-- C4: the recommended agent count of `autoSpawnAgents` is monotonically
non-decreasing across the level order simple < medium < complex < critical
of the fixed `agentConfigs` table (2, 4, 7, 10 agents respectively). -/
theorem agentCount_monotone :
    ∀ l1 ∈ PreTask.complexityLevels, ∀ l2 ∈ PreTask.complexityLevels,
      PreTask.levelRank l1 < PreTask.levelRank l2 →
      PreTask.autoSpawnAgentCount l1 ≤ PreTask.autoSpawnAgentCount l2 := by
  decide

/-- Witness for C4 at the pair (simple, critical). -/
theorem agentCount_monotone_witness :
    "simple" ∈ PreTask.complexityLevels ∧ "critical" ∈ PreTask.complexityLevels ∧
      PreTask.levelRank "simple" < PreTask.levelRank "critical" ∧
      PreTask.autoSpawnAgentCount "simple" ≤ PreTask.autoSpawnAgentCount "critical" :=
  ⟨by decide, by decide, by decide,
    agentCount_monotone "simple" (by decide) "critical" (by decide) (by decide)⟩

/-- C10: in `selectOptimalTopology`, a description containing `api` or
`service` (case-insensitively) yields type `hierarchical`, overriding the
keyword-scored selection; failing that, a description containing `test` or
`validate` yields type `ring`. -/
theorem topology_overrides (d : String) :
    ((jsIncludes (jsToLower d) "api" || jsIncludes (jsToLower d) "service") = true →
      (PreTask.selectOptimalTopology d).type = "hierarchical") ∧
    ((jsIncludes (jsToLower d) "api" || jsIncludes (jsToLower d) "service") = false →
      (jsIncludes (jsToLower d) "test" || jsIncludes (jsToLower d) "validate") = true →
      (PreTask.selectOptimalTopology d).type = "ring") := by
  constructor
  · intro h
    simp [PreTask.selectOptimalTopology, h]
  · intro h h2
    simp [PreTask.selectOptimalTopology, h, h2]

/-- Witness for C10 at the descriptions "build an API" and "test the module". -/
theorem topology_overrides_witness :
    ((jsIncludes (jsToLower "build an API") "api" ||
        jsIncludes (jsToLower "build an API") "service") = true ∧
      (PreTask.selectOptimalTopology "build an API").type = "hierarchical") ∧
    ((jsIncludes (jsToLower "test the module") "api" ||
        jsIncludes (jsToLower "test the module") "service") = false ∧
      (jsIncludes (jsToLower "test the module") "test" ||
        jsIncludes (jsToLower "test the module") "validate") = true ∧
      (PreTask.selectOptimalTopology "test the module").type = "ring") :=
  ⟨⟨by decide, (topology_overrides "build an API").1 (by decide)⟩,
   ⟨by decide, by decide, (topology_overrides "test the module").2 (by decide) (by decide)⟩⟩

/-- C9 counterexample: "constructor" is not a registered hook name, yet
`this.hooks['constructor']` is the truthy inherited `Object` constructor, so
`executeHook` skips the unknown-hook early return and instead returns the
caught TypeError of the try block — an error that does not name the unknown
hook. -/
theorem unknownHook_counterexample :
    "constructor" ∉ Manager.hookNames ∧
      Manager.executeHook (fun _ => .ok { success := true, error := none })
          "constructor" =
        { success := false
          error := some "TypeError: hook.execute is not a function" } ∧
      (Manager.executeHook (fun _ => .ok { success := true, error := none })
          "constructor").error ≠
        some ("Unknown hook: " ++ "constructor") := by
  refine ⟨by decide, rfl, by decide⟩

/-- C9 (amended): `HookManager.executeHook` never propagates an exception —
an unregistered name that is not an `Object.prototype` property name yields
`{success: false, error}` naming the unknown hook; an unregistered
prototype-inherited name (e.g. `constructor`) passes the truthy lookup, and
the TypeError the try block then throws is caught and converted into
`{success: false, error}` (not naming the hook); and a registered hook
whose execute throws has the exception caught and converted into
`{success: false, error}`. -/
theorem executeHook_error_handling
    (run : String → Except String Manager.HookResult) (name : String) :
    (name ∉ Manager.hookNames → name ∉ objectProtoKeys →
      Manager.executeHook run name =
        { success := false, error := some ("Unknown hook: " ++ name) }) ∧
    (name ∉ Manager.hookNames → name ∈ objectProtoKeys →
      Manager.executeHook run name =
        { success := false, error := some (Manager.protoCaughtError name) }) ∧
    (∀ e, name ∈ Manager.hookNames → run name = .error e →
      Manager.executeHook run name = { success := false, error := some e }) := by
  refine ⟨?_, ?_, ?_⟩
  · intro h hp
    simp [Manager.executeHook, h, hp]
  · intro h hp
    simp [Manager.executeHook, h, hp]
  · intro e hm hr
    simp [Manager.executeHook, hm, hr]

/-- Witness for C9 (amended): the plain unknown name "bogus", the
prototype-inherited name "constructor", and a registered hook ("pre-task")
whose execute throws "boom". -/
theorem executeHook_error_handling_witness :
    ("bogus" ∉ Manager.hookNames ∧ "bogus" ∉ objectProtoKeys ∧
      Manager.executeHook (fun _ => .error "boom") "bogus" =
        { success := false, error := some ("Unknown hook: " ++ "bogus") }) ∧
    ("constructor" ∉ Manager.hookNames ∧ "constructor" ∈ objectProtoKeys ∧
      Manager.executeHook (fun _ => .error "boom") "constructor" =
        { success := false, error := some (Manager.protoCaughtError "constructor") }) ∧
    ("pre-task" ∈ Manager.hookNames ∧
      Manager.executeHook (fun _ => .error "boom") "pre-task" =
        { success := false, error := some "boom" }) :=
  ⟨⟨by decide, by decide,
    (executeHook_error_handling (fun _ => .error "boom") "bogus").1
      (by decide) (by decide)⟩,
   ⟨by decide, by decide,
    (executeHook_error_handling (fun _ => .error "boom") "constructor").2.1
      (by decide) (by decide)⟩,
   ⟨by decide,
    (executeHook_error_handling (fun _ => .error "boom") "pre-task").2.2
      "boom" (by decide) rfl⟩⟩

/-- C7: every always-on tool id is in the resolved `required` set, for every
configuration, pattern list, level, role list and prompt — the unconditional
inclusion of resolution step 4 survives deduplication and sorting. -/
theorem alwaysOn_included (cfg : Resolver.ResolverConfig)
    (matchedPatterns : List String) (level : Nat) (roles : List String)
    (prompt t : String) (ht : t ∈ cfg.alwaysOn) :
    t ∈ (Resolver.resolve cfg matchedPatterns level roles prompt).required := by
  unfold Resolver.resolve
  simp only [mem_sortStrings, List.mem_dedup, List.mem_append]
  tauto

/-- Witness for C7: `alwaysOnTool1` of the sample configuration is required
for the pattern-free prompt "hi". -/
theorem alwaysOn_included_witness :
    "alwaysOnTool1" ∈ Resolver.sampleConfig.alwaysOn ∧
      "alwaysOnTool1" ∈ (Resolver.resolve Resolver.sampleConfig [] 1 [] "hi").required :=
  ⟨by decide, alwaysOn_included Resolver.sampleConfig [] 1 [] "hi" "alwaysOnTool1" (by decide)⟩

/-- The `patterns` accumulator of the indicator loop collects, tier by tier,
exactly the keywords found in the lowercased description: the conditional
append loses nothing because a tier with no hit contributes an empty
filter. -/
theorem indicator_foldl_patterns (low : String)
    (entries : List (String × List String)) :
    ∀ st : String × Nat × List String,
      (entries.foldl (PreTask.indicatorStep low) st).2.2 =
        st.2.2 ++ (entries.map (fun e => e.2.filter (fun k => jsIncludes low k))).flatten := by
  induction entries with
  | nil => intro st; simp
  | cons e rest ih =>
    intro st
    rw [List.foldl_cons, ih]
    by_cases h : e.2.any (fun k => jsIncludes low k)
    · simp [PreTask.indicatorStep, h]
    · have hf : e.2.filter (fun k => jsIncludes low k) = [] := by
        rw [List.filter_eq_nil_iff]
        intro a ha
        by_contra hc
        exact h (List.any_eq_true.mpr ⟨a, ha, by simpa using hc⟩)
      simp [PreTask.indicatorStep, h, hf]

/-- C6: a keyword is in the returned matched-pattern list of
`estimateTaskComplexity` exactly when it is a catalog keyword of some
indicator tier and occurs (lowercase) as a substring of the lowercased
description — no keyword contained in the prompt is omitted and no keyword
absent from it is included. -/
theorem matchedKeywords_exact (d k : String) :
    k ∈ (PreTask.estimateTaskComplexity d).patterns ↔
      ∃ entry ∈ PreTask.complexityIndicators,
        k ∈ entry.2 ∧ jsIncludes (jsToLower d) k = true := by
  simp only [PreTask.estimateTaskComplexity]
  rw [indicator_foldl_patterns]
  simp only [List.nil_append, List.mem_flatten, List.mem_map, Prod.exists]
  constructor
  · rintro ⟨l, ⟨a, b, hab, rfl⟩, hk⟩
    have hm := List.mem_filter.mp hk
    exact ⟨a, b, hab, hm.1, hm.2⟩
  · rintro ⟨a, b, hab, hkb, hinc⟩
    exact ⟨_, ⟨a, b, hab, rfl⟩, List.mem_filter.mpr ⟨hkb, hinc⟩⟩

/-- C1 counterexample: the prompt "security" alone establishes the
`critical` level, yet adding three component keywords to it produces the
strictly lower `complex` level — the multi-component rule overwrites the
level rather than acting as a floor on it. -/
theorem componentsFloor_counterexample :
    (PreTask.estimateTaskComplexity "security").level = "critical" ∧
      ((PreTask.componentKeywords.filter (fun c =>
          jsIncludes (jsToLower "security frontend backend database") c)).length > 2) ∧
      (PreTask.estimateTaskComplexity "security frontend backend database").level
        = "complex" ∧
      PreTask.levelRank "complex" < PreTask.levelRank "critical" := by
  refine ⟨by decide, by decide, by decide, by decide⟩

/-- C1 (amended): a prompt mentioning more than two component keywords gets
level exactly `complex` — at least the complex floor, but as an override
that replaces (and can lower) a level established by other signals — and an
estimate of at least 90 minutes. -/
theorem componentsFloor_override (d : String)
    (h : (PreTask.componentKeywords.filter (fun c =>
        jsIncludes (jsToLower d) c)).length > 2) :
    (PreTask.estimateTaskComplexity d).level = "complex" ∧
      (PreTask.estimateTaskComplexity d).estimatedMinutes ≥ 90 := by
  unfold PreTask.estimateTaskComplexity
  refine ⟨by simp [h], by simp [h]⟩

/-- Witness for C1 (amended) at the spec example prompt. -/
theorem componentsFloor_override_witness :
    ((PreTask.componentKeywords.filter (fun c =>
        jsIncludes (jsToLower "build a frontend, backend, and database layer with auth") c)).length > 2) ∧
      (PreTask.estimateTaskComplexity
          "build a frontend, backend, and database layer with auth").level = "complex" ∧
      (PreTask.estimateTaskComplexity
          "build a frontend, backend, and database layer with auth").estimatedMinutes ≥ 90 :=
  ⟨by decide,
    componentsFloor_override "build a frontend, backend, and database layer with auth"
      (by decide)⟩

/-- C2 counterexample: for the non-string prompt `null`, the analysis throws
a `TypeError` (caught only by `execute`, which reports
`{continue: false, error}` instead of a minimal valid analysis result). -/
theorem emptyPrompt_counterexample :
    PreTask.estimateTaskComplexityJS (PreTask.coerceDescription PreTask.JSPrompt.nullv)
        = Except.error "TypeError: description.toLowerCase is not a function" ∧
      PreTask.executeModel PreTask.JSPrompt.nullv
        = { continueFlag := false
            error := some "TypeError: description.toLowerCase is not a function"
            complexityLevel := none } :=
  ⟨rfl, rfl⟩

/-- C2 (amended): the empty-string prompt is handled without an exception
and yields the lowest level of the catalog (`simple`, the code's analogue of
TRIVIAL) with empty pattern and component lists; a non-string prompt such as
`null` makes the estimator throw a `TypeError`, which `execute` catches and
converts into `{continue: false, error}`. -/
theorem emptyPrompt_behavior :
    PreTask.estimateTaskComplexity "" =
        { level := "simple", estimatedMinutes := 15, patterns := []
          components := [], requiresCoordination := false } ∧
      PreTask.executeModel (PreTask.JSPrompt.str "") =
        { continueFlag := true, error := none, complexityLevel := some "simple" } ∧
      PreTask.executeModel PreTask.JSPrompt.nullv =
        { continueFlag := false
          error := some "TypeError: description.toLowerCase is not a function"
          complexityLevel := none } := by
  refine ⟨by decide, by decide, rfl⟩

/-- C5 counterexample: an unknown complexity level does not contribute an
empty agent list — for the key "unknown-level" the `|| agentConfigs.simple`
fallback substitutes the non-empty `simple` configuration (2 agents), and
for the key "constructor" the prototype chain yields a truthy inherited
value, the fallback is skipped, and `agents.map(...)` throws a TypeError
(so resolution is not error-free either). -/
theorem unknownLevel_counterexample :
    ("unknown-level" ∉ PreTask.agentConfigs.map Prod.fst ∧
      PreTask.autoSpawnAgentsJS "unknown-level" = .ok 2) ∧
    ("constructor" ∉ PreTask.agentConfigs.map Prod.fst ∧
      PreTask.autoSpawnAgentsJS "constructor" =
        .error "TypeError: agents.map is not a function") := by
  refine ⟨⟨by decide, rfl⟩, ⟨by decide, rfl⟩⟩

/-- C5 (amended): looking up a complexity level absent from the
level-to-agents table never yields an empty contribution — for a level that
is not an `Object.prototype` property name, the `||` fallback substitutes
the non-empty `simple` configuration (2 agents) and resolution completes
without error; for a prototype-inherited name like `constructor`, the
truthy lookup skips the fallback and the subsequent `agents.map` throws a
TypeError. -/
theorem unknownLevel_fallback (level : String)
    (h : level ∉ PreTask.agentConfigs.map Prod.fst) :
    (level ∉ objectProtoKeys → PreTask.autoSpawnAgentsJS level = .ok 2) ∧
    (level ∈ objectProtoKeys →
      PreTask.autoSpawnAgentsJS level =
        .error "TypeError: agents.map is not a function") := by
  simp only [PreTask.agentConfigs, List.map_cons, List.map_nil, List.mem_cons,
    List.mem_singleton, not_or] at h
  obtain ⟨h1, h2, h3, h4, -⟩ := h
  have e1 : (level == "simple") = false := by simp [h1]
  have e2 : (level == "medium") = false := by simp [h2]
  have e3 : (level == "complex") = false := by simp [h3]
  have e4 : (level == "critical") = false := by simp [h4]
  have hl : PreTask.agentConfigs.lookup level = none := by
    simp [PreTask.agentConfigs, List.lookup, e1, e2, e3, e4]
  constructor
  · intro hp
    simp [PreTask.autoSpawnAgentsJS, PreTask.agentConfigsGet, hl, hp,
      PreTask.simpleAgents]
  · intro hp
    simp [PreTask.autoSpawnAgentsJS, PreTask.agentConfigsGet, hl, hp]

/-- Witness for C5 (amended) at the plain unknown level "unknown-level" and
the prototype-inherited name "constructor". -/
theorem unknownLevel_fallback_witness :
    ("unknown-level" ∉ PreTask.agentConfigs.map Prod.fst ∧
      "unknown-level" ∉ objectProtoKeys ∧
      PreTask.autoSpawnAgentsJS "unknown-level" = .ok 2) ∧
    ("constructor" ∉ PreTask.agentConfigs.map Prod.fst ∧
      "constructor" ∈ objectProtoKeys ∧
      PreTask.autoSpawnAgentsJS "constructor" =
        .error "TypeError: agents.map is not a function") :=
  ⟨⟨by decide, by decide,
    (unknownLevel_fallback "unknown-level" (by decide)).1 (by decide)⟩,
   ⟨by decide, by decide,
    (unknownLevel_fallback "constructor" (by decide)).2 (by decide)⟩⟩

/-- The state invariant of a blocked command: validation has marked it
unsafe, and the risk level is `critical` or `high`. -/
def blockedInv (st : PreCommand.SafetyResult) : Prop :=
  st.safe = false ∧ (st.riskLevel = "critical" ∨ st.riskLevel = "high")

/-- A single dangerous-pattern iteration preserves the blocked invariant. -/
theorem dangerStep_inv (command d : String) (st : PreCommand.SafetyResult)
    (h : blockedInv st) : blockedInv (PreCommand.dangerStep command st d) := by
  unfold blockedInv PreCommand.dangerStep at *
  split
  · exact ⟨rfl, Or.inl rfl⟩
  · exact h

/-- The dangerous-pattern loop preserves the blocked invariant. -/
theorem dangerFold_inv (command : String) (l : List String)
    (st : PreCommand.SafetyResult) (h : blockedInv st) :
    blockedInv (l.foldl (PreCommand.dangerStep command) st) := by
  induction l generalizing st with
  | nil => exact h
  | cons d rest ih =>
    rw [List.foldl_cons]
    exact ih _ (dangerStep_inv command d st h)

/-- If some dangerous pattern occurs in the command, the loop ends unsafe at
risk level `critical`. -/
theorem dangerFold_hit (command : String) (l : List String)
    (st : PreCommand.SafetyResult)
    (h : ∃ d ∈ l, jsIncludes command d = true) :
    blockedInv (l.foldl (PreCommand.dangerStep command) st) := by
  induction l generalizing st with
  | nil => simp at h
  | cons d rest ih =>
    rw [List.foldl_cons]
    by_cases hd : jsIncludes command d
    · exact dangerFold_inv command rest _ (by simp [PreCommand.dangerStep, hd, blockedInv])
    · obtain ⟨x, hx, hxm⟩ := h
      rcases List.mem_cons.mp hx with rfl | hmem
      · exact absurd hxm (by simpa using hd)
      · exact ih _ ⟨x, hmem, hxm⟩

/-- The sudo check preserves the blocked invariant. -/
theorem sudoCheck_inv (command : String) (st : PreCommand.SafetyResult)
    (h : blockedInv st) : blockedInv (PreCommand.sudoCheck command st) := by
  unfold blockedInv PreCommand.sudoCheck at *
  split
  · exact ⟨h.1, Or.inr rfl⟩
  · exact h

/-- The medium upgrade preserves the blocked invariant: a `critical` or
`high` level is neither empty nor `low`, so it is kept. -/
theorem upgradeIfLow_inv (st : PreCommand.SafetyResult) (w : String)
    (h : blockedInv st) : blockedInv (PreCommand.upgradeIfLow st w) := by
  unfold blockedInv PreCommand.upgradeIfLow at *
  rcases h with ⟨hs, hr | hr⟩ <;> simp [hr, hs]

/-- The path-validation step preserves the blocked invariant. -/
theorem pathsCheck_inv (home command : String) (st : PreCommand.SafetyResult)
    (h : blockedInv st) : blockedInv (PreCommand.pathsCheck home command st) := by
  unfold blockedInv PreCommand.pathsCheck at *
  split
  · dsimp only
    split
    · exact ⟨h.1, Or.inr rfl⟩
    · exact h
  · exact h

/-- The conditional file-system check preserves the blocked invariant. -/
theorem fsStage_inv (command : String) (st : PreCommand.SafetyResult)
    (h : blockedInv st) :
    blockedInv (if PreCommand.fsOpsMatch command then
      PreCommand.upgradeIfLow st "Command performs file system operations"
    else st) := by
  split
  · exact upgradeIfLow_inv _ _ h
  · exact h

/-- The conditional network check preserves the blocked invariant. -/
theorem netStage_inv (command : String) (st : PreCommand.SafetyResult)
    (h : blockedInv st) :
    blockedInv (if PreCommand.networkMatch command then
      PreCommand.upgradeIfLow st "Command performs network operations"
    else st) := by
  split
  · exact upgradeIfLow_inv _ _ h
  · exact h

/-- The conditional script-pipe check preserves the blocked invariant. -/
theorem pipeStage_inv (command : String) (st : PreCommand.SafetyResult)
    (h : blockedInv st) :
    blockedInv (if PreCommand.pipeInterpMatch command then
      { st with warnings := st.warnings ++ ["Command pipes to script interpreter"]
                riskLevel := "high" }
    else st) := by
  split
  · exact ⟨h.1, Or.inr rfl⟩
  · exact h

/-- All checks after the dangerous-pattern loop preserve the blocked
invariant. -/
theorem postDangerStages_inv (home command : String)
    (st : PreCommand.SafetyResult) (h : blockedInv st) :
    blockedInv (PreCommand.postDangerStages home command st) := by
  unfold PreCommand.postDangerStages
  exact pathsCheck_inv home command _
    (pipeStage_inv command _
      (netStage_inv command _
        (fsStage_inv command _ (sudoCheck_inv command st h))))

/-- C8 counterexample: `curl | bash` is itself an entry of the
dangerous-command list, and validation does mark it unsafe, but its final
risk level is `high`, not `critical` — the later pipe-to-interpreter check
overwrites the level the dangerous-pattern loop set. -/
theorem dangerousCommand_counterexample :
    "curl | bash" ∈ PreCommand.dangerousCommands ∧
      (PreCommand.validateCommandSafety "/root" "curl | bash").safe = false ∧
      (PreCommand.validateCommandSafety "/root" "curl | bash").riskLevel = "high" ∧
      (PreCommand.validateCommandSafety "/root" "curl | bash").riskLevel ≠ "critical" := by
  refine ⟨by decide, by decide, by decide, by decide⟩

/-- C8 (amended): a command containing a dangerous-command entry is marked
unsafe with risk level `critical` unless a later check (sudo or
pipe-to-interpreter) overwrites it to `high`; `execute` (safety validation
enabled) then returns `safe = false`, `continue = false` and skips resource
preparation, optimization suggestions and intent logging. -/
theorem dangerousCommand_blocked (home command : String)
    (h : ∃ d ∈ PreCommand.dangerousCommands, jsIncludes command d = true) :
    (PreCommand.validateCommandSafety home command).safe = false ∧
      ((PreCommand.validateCommandSafety home command).riskLevel = "critical" ∨
        (PreCommand.validateCommandSafety home command).riskLevel = "high") ∧
      PreCommand.execute home command =
        { continueFlag := false, safe := false
          warnings := (PreCommand.validateCommandSafety home command).warnings
          ranPrepareResources := false, ranSuggestOptimizations := false
          ranLogIntent := false, error := none } := by
  have hval : blockedInv (PreCommand.validateCommandSafety home command) :=
    postDangerStages_inv home command _
      (dangerFold_hit command PreCommand.dangerousCommands _ h)
  have hne : command ≠ "" := by
    rintro rfl
    obtain ⟨d, hd, hinc⟩ := h
    have hall : ∀ x ∈ PreCommand.dangerousCommands, x.data ≠ [] := by decide
    apply hall d hd
    have hpre : d.data.isPrefixOf ([] : List Char) = true := by
      simpa [jsIncludes, listHasInfix, List.tails] using hinc
    cases hdata : d.data with
    | nil => rfl
    | cons c cs => rw [hdata] at hpre; simp [List.isPrefixOf] at hpre
  refine ⟨hval.1, hval.2, ?_⟩
  unfold PreCommand.execute
  rw [if_neg hne]
  simp [hval.1]

/-- Witness for C8 (amended) at the command `rm -rf /tmp/x`. -/
theorem dangerousCommand_blocked_witness :
    (∃ d ∈ PreCommand.dangerousCommands, jsIncludes "rm -rf /tmp/x" d = true) ∧
      (PreCommand.validateCommandSafety "/root" "rm -rf /tmp/x").safe = false ∧
      ((PreCommand.validateCommandSafety "/root" "rm -rf /tmp/x").riskLevel = "critical" ∨
        (PreCommand.validateCommandSafety "/root" "rm -rf /tmp/x").riskLevel = "high") ∧
      PreCommand.execute "/root" "rm -rf /tmp/x" =
        { continueFlag := false, safe := false
          warnings := (PreCommand.validateCommandSafety "/root" "rm -rf /tmp/x").warnings
          ranPrepareResources := false, ranSuggestOptimizations := false
          ranLogIntent := false, error := none } :=
  ⟨⟨"rm -rf", by decide, by decide⟩,
    dangerousCommand_blocked "/root" "rm -rf /tmp/x" ⟨"rm -rf", by decide, by decide⟩⟩

end ReClaude
